import Mathlib

/-!
Verification development for the `zabbix_user` Ansible module
(`src/modules/zabbix_user.py`): a reconciliation engine that converges a
desired Zabbix user record against the state stored on a remote Zabbix
server, via create / update / delete RPC calls.

The module code is shallowly embedded below.  Python dicts become
association lists compared with Python's order-insensitive dict equality;
the remote Zabbix service (an external collaborator, spec section 6) is
modelled as a store of user records answering `user.get` with exactly the
requested projection.  Every remote call the module issues is recorded in a
trace, and `exit_json` / `fail_json` terminate the run with an `Outcome`.
-/

namespace ZbxUser

/-- A Python scalar value as it occurs in this module's dicts: strings,
ints, bools, `None`, and lists of strings (the `sendto` field). -/
inductive Scalar where
  | s : String → Scalar
  | i : Int → Scalar
  | b : Bool → Scalar
  | none : Scalar
  | slist : List String → Scalar
deriving DecidableEq, Repr

/-- A flat Python dict of scalars (a user-group entry or a media entry). -/
abbrev SubDict := List (String × Scalar)

/-- A value stored in a top-level dict: a scalar, or a list of flat dicts
(the `usrgrps` / `user_medias` collections). -/
inductive Value where
  | scalar : Scalar → Value
  | dlist : List SubDict → Value
deriving DecidableEq, Repr

/-- A top-level Python dict (the `params` / `nstate` / `cstate` dicts). -/
abbrev Dict := List (String × Value)

/-- `d[k]` lookup: first binding of the key, if any. -/
def lookupD {α : Type} (d : List (String × α)) (k : String) : Option α :=
  (d.find? (fun p => p.1 == k)).map (fun p => p.2)

/-- `d[k] = v`: replace the binding in place when the key exists,
otherwise append it at the end (Python insertion-order semantics). -/
def setD {α : Type} (d : List (String × α)) (k : String) (v : α) :
    List (String × α) :=
  match d with
  | [] => [(k, v)]
  | p :: rest => if p.1 == k then (k, v) :: rest else p :: setD rest k v

/-- `del d[k]`: drop the binding of the key. -/
def delD {α : Type} (d : List (String × α)) (k : String) :
    List (String × α) :=
  d.filter (fun p => !(p.1 == k))

/-- `d.pop(k)`: the value bound to the key together with the dict without
it, or `none` when the key is missing (Python raises `KeyError` then). -/
def popD {α : Type} (d : List (String × α)) (k : String) :
    Option (α × List (String × α)) :=
  (lookupD d k).map (fun v => (v, delD d k))

/-- `list(d.keys())`: the keys in insertion order. -/
def keysOf {α : Type} (d : List (String × α)) : List String :=
  d.map (fun p => p.1)

/-- Python `==` on the scalars in play.  Note Python's `bool` is an `int`
subtype, so `True == 1` holds; strings never equal ints. -/
def scalarEq : Scalar → Scalar → Bool
  | .s a, .s b => a == b
  | .i a, .i b => a == b
  | .b a, .b b => a == b
  | .b a, .i n => (if a then (1 : Int) else 0) == n
  | .i n, .b a => n == (if a then (1 : Int) else 0)
  | .none, .none => true
  | .slist a, .slist b => a == b
  | _, _ => false

/-- Python `==` on two flat dicts: equal key sets with equal values
(insertion order is irrelevant). -/
def subDictEq (a b : SubDict) : Bool :=
  (a.all (fun p => match lookupD b p.1 with
    | some v => scalarEq p.2 v
    | Option.none => false)) &&
  (b.all (fun p => (lookupD a p.1).isSome))

/-- Python `==` on top-level dict values: scalars compare as scalars,
dict lists compare pairwise (list equality) with dict semantics. -/
def valueEq : Value → Value → Bool
  | .scalar a, .scalar b => scalarEq a b
  | .dlist a, .dlist b =>
      a.length == b.length &&
      (a.zip b).all (fun p => subDictEq p.1 p.2)
  | _, _ => false

/-- Python `==` on two top-level dicts (order-insensitive). -/
def dictEq (a b : Dict) : Bool :=
  (a.all (fun p => match lookupD b p.1 with
    | some v => valueEq p.2 v
    | Option.none => false)) &&
  (b.all (fun p => (lookupD a p.1).isSome))

/-- The single-quote character, for Python `repr` of strings. -/
def squote : String := String.mk ['\x27']

/-- Python `str(x)` for the scalars this module coerces.  A string is
returned unchanged, an int renders in decimal, a bool as `True`/`False`,
`None` as `"None"`, and a list of strings as its Python repr. -/
def pyStr : Scalar → String
  | .s v => v
  | .i v => toString v
  | .b v => if v then "True" else "False"
  | .none => "None"
  | .slist v =>
      "[" ++ String.intercalate ", "
        (v.map (fun x => squote ++ x ++ squote)) ++ "]"

/-- Python exceptions that the module body can raise unhandled or catch. -/
inductive PyExc where
  | typeError
  | keyError : String → PyExc
  | indexError : PyExc
deriving DecidableEq, Repr

/-- The structured content of the module's `exit_json` / `fail_json`
messages (the source formats these into strings; the data they carry is
kept instead of reproducing Python string formatting). -/
inductive Msg where
  | mEmpty
  | mCreated : String → Msg
  | mDeleted : String → Msg
  | mUpdated : String → Dict → Dict → Msg
  | mNoChanges : String → Msg
  | mUserNotExists : String → Msg
  | mFailedGetState : String → PyExc → Msg
  | mFailedUpdate : String → PyExc → Msg
  | mFailedDelete : String → PyExc → Msg
deriving DecidableEq, Repr

/-- How a run of the module terminates: `exit_json` (success, with its
`changed` flag), `fail_json` (failure), or an unhandled Python exception
escaping `main` (the coercion loops have no handler). -/
inductive Outcome where
  | exited : Bool → Msg → Outcome
  | failed : Msg → Outcome
  | crashed : PyExc → Outcome
deriving DecidableEq, Repr

/-- Exceptional control flow inside the `User` methods: `exit_json` and
`fail_json` raise `SystemExit`, which `except Exception` does NOT catch,
so they are distinguished from catchable Python exceptions. -/
inductive Exc where
  | moduleExit : Outcome → Exc
  | pyExc : PyExc → Exc
deriving DecidableEq, Repr

/-- One remote call issued through the Zabbix API handle. -/
inductive Call where
  | userGet : String → Call
  | userGetDetail : List String → String → List String → String → Call
  | userCreate : Dict → Call
  | userUpdate : Dict → Call
  | userDelete : List String → Call
deriving DecidableEq, Repr

/-- Whether a call mutates remote state (create / update / delete). -/
def isMutating : Call → Bool
  | .userCreate _ => true
  | .userUpdate _ => true
  | .userDelete _ => true
  | _ => false

/-- Number of mutating calls in a trace. -/
def mutCount (t : List Call) : Nat :=
  (t.filter isMutating).length

/-- Modelled from the spec: one user record stored by the remote service
(RemoteResourceService, spec section 6) — an opaque id, scalar fields, and
the group / media sub-collections. -/
structure ServerUser where
  userid : String
  fields : Dict
  usrgrps : List SubDict
  medias : List SubDict
deriving DecidableEq, Repr

/-- Modelled from the spec: the remote service's store of user records. -/
structure Server where
  users : List ServerUser
deriving DecidableEq, Repr

/-- Modelled from the spec: `find(filter: {alias})` — all stored users
whose `alias` field equals the given alias, zero or more matches. -/
def findUsers (srv : Server) (al : String) : List ServerUser :=
  srv.users.filter
    (fun u => lookupD u.fields "alias" == some (Value.scalar (.s al)))

/-- Project a dict to the requested keys, keeping only present ones. -/
def projectDict (keys : List String) (d : Dict) : Dict :=
  keys.filterMap (fun k => (lookupD d k).map (fun v => (k, v)))

/-- Project a flat dict to the requested keys. -/
def projectSub (keys : List String) (d : SubDict) : SubDict :=
  keys.filterMap (fun k => (lookupD d k).map (fun v => (k, v)))

/-- Modelled from the spec: `get(projection, selectGroups, selectMedia,
ids)` — the detailed fetch returns, for each matching id, exactly the
requested projection of the stored scalar fields, the groups projected to
the `selectUsrgrps` property, and the medias projected to the
`selectMedias` keys (under the server-side keys `usrgrps` / `medias`). -/
def getDetail (srv : Server) (output : List String) (grpKey : String)
    (mediaKeys : List String) (userid : String) : List Dict :=
  (srv.users.filter (fun u => u.userid == userid)).map (fun u =>
    projectDict output u.fields
      ++ [("usrgrps", Value.dlist (u.usrgrps.map (projectSub [grpKey])))]
      ++ [("medias", Value.dlist (u.medias.map (projectSub mediaKeys)))])

/-- `User.check_user_exist` (source lines 206-219): `user.get` with an
alias filter; returns the (possibly empty) match list.  The modelled
service never raises, so the `except` branch is unreachable. -/
def check_user_exist (srv : Server) (al : String) :
    List ServerUser × List Call :=
  (findUsers srv al, [.userGet al])

/-- `User._get_user_id` (source lines 222-240): `user.get` with an alias
filter; a non-empty result yields `result[0]["userid"]`, an empty result
hits `fail_json("The user ... does not exists.")` — a module exit, which
`except Exception` in the callers does not catch. -/
def get_user_id (srv : Server) (al : String) :
    Except Exc String × List Call :=
  match findUsers srv al with
  | [] => (.error (.moduleExit (.failed (.mUserNotExists al))), [.userGet al])
  | u :: _ => (.ok u.userid, [.userGet al])

/-- The `output` projection list of `User._get_user_state`
(source lines 248-261) — note it requests `passwd`. -/
def outputFields : List String :=
  ["alias", "autologin", "autologout", "lang", "name", "passwd",
   "refresh", "url", "rows_per_page", "surname", "theme", "type"]

/-- `User._get_user_state` (source lines 243-271).
`media_keys = list(medias[0].keys())` runs BEFORE the `try`, so an empty
media list raises `IndexError` out of this method (caught by
`update_user`'s handler).  Inside the `try`, the detailed `user.get` is
issued for `self._get_user_id(alias)`; an empty result makes `result[0]`
raise `IndexError` inside the `try`, turned into
`fail_json("Failed to get the state ...")`. -/
def get_user_state (srv : Server) (al : String) (medias : List SubDict) :
    Except Exc Dict × List Call :=
  match medias with
  | [] => (.error (.pyExc .indexError), [])
  | m :: _ =>
    let media_keys := keysOf m
    match get_user_id srv al with
    | (.error e, t) => (.error e, t)
    | (.ok uid, t) =>
      let call := Call.userGetDetail outputFields "usrgrpid" media_keys uid
      match getDetail srv outputFields "usrgrpid" media_keys uid with
      | [] => (.error (.moduleExit (.failed (.mFailedGetState al .indexError))),
               t ++ [call])
      | r :: _ => (.ok r, t ++ [call])

/-- The value of an optional string parameter in a params dict: the
string itself, or Python `None` when the parameter was not supplied. -/
def optScalar : Option String → Scalar
  | some v => .s v
  | Option.none => .none

/-- `User.create_user` (source lines 274-304): in check mode it exits
immediately with `changed=True` and no remote call; otherwise it builds
the params dict, issues `user.create`, and exits with `changed=True`. -/
def create_user (check_mode : Bool) (al autologin autologout lang
    redirect_url refresh rows_per_page : String)
    (user_groups user_medias : List SubDict)
    (user_name user_password user_surname : Option String)
    (user_theme user_type : String) : Outcome × List Call :=
  if check_mode then (.exited true .mEmpty, [])
  else
    let params : Dict :=
      [("alias", .scalar (.s al)),
       ("autologin", .scalar (.s autologin)),
       ("autologout", .scalar (.s autologout)),
       ("lang", .scalar (.s lang)),
       ("name", .scalar (optScalar user_name)),
       ("passwd", .scalar (optScalar user_password)),
       ("refresh", .scalar (.s refresh)),
       ("url", .scalar (.s redirect_url)),
       ("rows_per_page", .scalar (.s rows_per_page)),
       ("surname", .scalar (optScalar user_surname)),
       ("theme", .scalar (.s user_theme)),
       ("type", .scalar (.s user_type)),
       ("usrgrps", .dlist user_groups),
       ("user_medias", .dlist user_medias)]
    (.exited true (.mCreated al), [.userCreate params])

/-- `User.delete_user` (source lines 307-327): resolve the id (which
itself fail_jsons when the user is absent), then — the id being a
non-empty string — issue `user.delete([str(uid)])` and exit with
`changed=True`; an empty-string id falls to the
`fail_json("The user ... does not exists.")` branch. -/
def delete_user (srv : Server) (al : String) : Outcome × List Call :=
  match get_user_id srv al with
  | (.error (.moduleExit o), t) => (o, t)
  | (.error (.pyExc e), t) => (.failed (.mFailedDelete al e), t)
  | (.ok uid, t) =>
    if uid != "" then
      (.exited true (.mDeleted al), t ++ [.userDelete [uid]])
    else
      (.failed (.mUserNotExists al), t)

/-- `User.update_user` (source lines 330-373).  `nstate = params` binds
the SAME dict object, so `del nstate['passwd']` removes `passwd` from
`params` too: the comparison and the `user.update` call both operate on
the dict without `passwd`.  `cstate` is fetched (with
`params['user_medias']`, i.e. the caller's media list), its `medias` key
is popped and re-inserted as `user_medias`, and a Python `!=` dict
comparison decides between `user.update` + `changed=True` and
`changed=False`.  Catchable exceptions become
`fail_json("Failed to update ...")`. -/
def update_user (srv : Server) (al autologin autologout lang redirect_url
    refresh rows_per_page : String) (user_groups user_medias : List SubDict)
    (user_name user_password user_surname : Option String)
    (user_theme user_type : String) : Outcome × List Call :=
  match get_user_id srv al with
  | (.error (.moduleExit o), t) => (o, t)
  | (.error (.pyExc e), t) => (.failed (.mFailedUpdate al e), t)
  | (.ok uid, t1) =>
    let params0 : Dict :=
      [("userid", .scalar (.s uid)),
       ("alias", .scalar (.s al)),
       ("autologin", .scalar (.s autologin)),
       ("autologout", .scalar (.s autologout)),
       ("lang", .scalar (.s lang)),
       ("name", .scalar (optScalar user_name)),
       ("passwd", .scalar (optScalar user_password)),
       ("refresh", .scalar (.s refresh)),
       ("url", .scalar (.s redirect_url)),
       ("rows_per_page", .scalar (.s rows_per_page)),
       ("surname", .scalar (optScalar user_surname)),
       ("theme", .scalar (.s user_theme)),
       ("type", .scalar (.s user_type)),
       ("usrgrps", .dlist user_groups),
       ("user_medias", .dlist user_medias)]
    -- nstate = params; del nstate['passwd'] — the two names alias one
    -- dict, so params itself loses the passwd key here.
    let params := delD params0 "passwd"
    let nstate := params
    -- params['user_medias'] is the user_medias argument the dict was
    -- built from two lines above.
    match get_user_state srv al user_medias with
    | (.error (.moduleExit o), t2) => (o, t1 ++ t2)
    | (.error (.pyExc e), t2) => (.failed (.mFailedUpdate al e), t1 ++ t2)
    | (.ok cstate0, t2) =>
      match popD cstate0 "medias" with
      | Option.none => (.failed (.mFailedUpdate al (.keyError "medias")),
                        t1 ++ t2)
      | some (mv, rest) =>
        let cstate := setD rest "user_medias" mv
        if !(dictEq cstate nstate) then
          (.exited true (.mUpdated al cstate nstate),
           t1 ++ t2 ++ [.userUpdate params])
        else
          (.exited false (.mNoChanges al), t1 ++ t2)

/-- Requested lifecycle, validated by the front-end to these two values
(`choices=['present','absent']`, source lines 449-455). -/
inductive St where
  | present
  | absent
deriving DecidableEq, Repr

/-- The module parameters as they come out of `AnsibleModule` argument
parsing (the front-end, out of scope): typed, defaulted, with
`user_groups` / `user_medias` still `None` when omitted. -/
structure ModuleParams where
  al : String
  autologin : Bool
  autologout : String
  lang : String
  user_name : Option String
  user_password : Option String
  redirect_url : String
  refresh : String
  rows_per_page : Int
  state : St
  user_surname : Option String
  user_theme : String
  user_type : Int
  user_groups : Option (List SubDict)
  user_medias : Option (List SubDict)
  check_mode : Bool
deriving DecidableEq, Repr

/-- The `user_groups` coercion loop (source lines 582-583): each entry's
`usrgrpid` is read (a missing key raises `KeyError`, unhandled) and
replaced by its `str()`. -/
def coerceGroups : List SubDict → Except PyExc (List SubDict)
  | [] => .ok []
  | g :: rest =>
    match lookupD g "usrgrpid" with
    | Option.none => .error (.keyError "usrgrpid")
    | some v =>
      match coerceGroups rest with
      | .error e => .error e
      | .ok rs => .ok (setD g "usrgrpid" (.s (pyStr v)) :: rs)

/-- The `user_medias` coercion loop body (source lines 584-588):
`mediatypeid` and `severity` are `str()`-coerced when present. -/
def coerceMedia (m : SubDict) : SubDict :=
  let m1 := match lookupD m "mediatypeid" with
    | some v => setD m "mediatypeid" (.s (pyStr v))
    | Option.none => m
  match lookupD m1 "severity" with
  | some v => setD m1 "severity" (.s (pyStr v))
  | Option.none => m1

/-- `main` (source lines 376-644), after `AnsibleModule` argument parsing
(front-end).  `autologin` is encoded "0"/"1", `rows_per_page` and
`user_type` are `str()`-coerced, then the two coercion loops run —
iterating a `None` raises an unhandled `TypeError` before the Zabbix
connection is even opened.  The transport connect/login is modelled as
always succeeding.  Then: `absent` → `delete_user`; `present` →
`check_user_exist` decides between `update_user` and `create_user`. -/
def runModule (srv : Server) (p : ModuleParams) : Outcome × List Call :=
  let autologin := if p.autologin then "1" else "0"
  let rows_per_page := toString p.rows_per_page
  let user_type := toString p.user_type
  match p.user_groups with
  | Option.none => (.crashed .typeError, [])
  | some gs =>
    match coerceGroups gs with
    | .error e => (.crashed e, [])
    | .ok user_groups =>
      match p.user_medias with
      | Option.none => (.crashed .typeError, [])
      | some ms =>
        let user_medias := ms.map coerceMedia
        match p.state with
        | .absent => delete_user srv p.al
        | .present =>
          let (res, t0) := check_user_exist srv p.al
          if !res.isEmpty then
            let r := update_user srv p.al autologin p.autologout p.lang
              p.redirect_url p.refresh rows_per_page user_groups user_medias
              p.user_name p.user_password p.user_surname p.user_theme
              user_type
            (r.1, t0 ++ r.2)
          else
            let r := create_user p.check_mode p.al autologin p.autologout
              p.lang p.redirect_url p.refresh rows_per_page user_groups
              user_medias p.user_name p.user_password p.user_surname
              p.user_theme user_type
            (r.1, t0 ++ r.2)

/-- The `changed` flag of an outcome, when the run exited successfully. -/
def changedOf : Outcome → Option Bool
  | .exited c _ => some c
  | _ => Option.none

/-- Modelled from the spec: `create(params) -> {id}` on a remote service
"that stores the applied state" — the service assigns the given fresh id
and stores the params' scalar entries as the user's fields and its
`usrgrps` / `user_medias` entries as the group / media collections. -/
def applyCreate (srv : Server) (newId : String) (params : Dict) : Server :=
  { users := srv.users ++
      [{ userid := newId,
         fields := params.filter (fun p => match p.2 with
           | .scalar _ => true
           | _ => false),
         usrgrps := (match lookupD params "usrgrps" with
           | some (.dlist l) => l
           | _ => []),
         medias := (match lookupD params "user_medias" with
           | some (.dlist l) => l
           | _ => []) }] }

/-- The compared states carried by an update outcome, when there was one
(the source embeds `cstate` and `nstate` in the success message). -/
def updatedStates : Outcome → Option (Dict × Dict)
  | .exited _ (.mUpdated _ c n) => some (c, n)
  | _ => Option.none

/-! ### Concrete fixtures -/

/-- A one-group desired membership (`usrgrpid` supplied as an int). -/
def gEx : List SubDict := [[("usrgrpid", Scalar.i 7)]]

/-- One desired media entry, shaped as `AnsibleModule` delivers it
(`mediatypeid` an int, `severity` a string, `sendto` a list). -/
def mediaEx : SubDict :=
  [("active", Scalar.b true), ("mediatypeid", Scalar.i 1),
   ("period", Scalar.s "1-7,00:00-24:00"),
   ("sendto", Scalar.slist ["a@b.c"]), ("severity", Scalar.s "63")]

/-- A one-channel desired media list. -/
def mEx : List SubDict := [mediaEx]

/-- A full `present` invocation for alias "alice". -/
def pAlice : ModuleParams :=
  { al := "alice", autologin := false, autologout := "15m",
    lang := "en_GB", user_name := some "Alice",
    user_password := some "pw1", redirect_url := "", refresh := "30s",
    rows_per_page := 50, state := .present, user_surname := some "A",
    user_theme := "default", user_type := 1, user_groups := some gEx,
    user_medias := some mEx, check_mode := false }

/-- An empty remote store. -/
def srv0 : Server := { users := [] }

/-- The params dict the create path sends for `pAlice` (proved equal to
the actual `user.create` argument in the C4 theorem). -/
def cp0 : Dict :=
  [("alias", .scalar (.s "alice")),
   ("autologin", .scalar (.s "0")),
   ("autologout", .scalar (.s "15m")),
   ("lang", .scalar (.s "en_GB")),
   ("name", .scalar (.s "Alice")),
   ("passwd", .scalar (.s "pw1")),
   ("refresh", .scalar (.s "30s")),
   ("url", .scalar (.s "")),
   ("rows_per_page", .scalar (.s "50")),
   ("surname", .scalar (.s "A")),
   ("theme", .scalar (.s "default")),
   ("type", .scalar (.s "1")),
   ("usrgrps", .dlist [[("usrgrpid", Scalar.s "7")]]),
   ("user_medias", .dlist
     [[("active", Scalar.b true), ("mediatypeid", Scalar.s "1"),
       ("period", Scalar.s "1-7,00:00-24:00"),
       ("sendto", Scalar.slist ["a@b.c"]),
       ("severity", Scalar.s "63")]])]

/-- The store after the create path's params were applied (id "1"). -/
def srv1 : Server := applyCreate srv0 "1" cp0

/-- The params dict the update path sends for `pAlice` against `srv1`:
the created params plus `userid`, minus `passwd` (removed by the
`nstate = params` aliasing). -/
def up0 : Dict := ("userid", Value.scalar (.s "1")) :: delD cp0 "passwd"

/-- An `absent` invocation for alias "dave". -/
def pDave : ModuleParams :=
  { pAlice with
    al := "dave", state := .absent,
    user_groups := some [], user_medias := some [] }

/-- A store holding a user "dave" with id "9". -/
def srvDave : Server :=
  { users := [{ userid := "9",
                fields := [("alias", .scalar (.s "dave"))],
                usrgrps := [], medias := [] }] }

/-- The "dave" delete invocation with check mode (dry-run) enabled. -/
def pDaveCheck : ModuleParams := { pDave with check_mode := true }

/-- The "alice" present invocation with check mode (dry-run) enabled. -/
def pAliceCheck : ModuleParams := { pAlice with check_mode := true }

/-- First of two stored users sharing the alias "dup". -/
def dupU1 : ServerUser :=
  { userid := "1", fields := [("alias", .scalar (.s "dup"))],
    usrgrps := [], medias := [] }

/-- Second of two stored users sharing the alias "dup". -/
def dupU2 : ServerUser :=
  { userid := "2", fields := [("alias", .scalar (.s "dup"))],
    usrgrps := [], medias := [] }

/-- A store with TWO users sharing the alias "dup" (ids "1" and "2"). -/
def srvDup : Server := { users := [dupU1, dupU2] }

/-- An `absent` invocation for the duplicated alias "dup". -/
def pDup : ModuleParams := { pDave with al := "dup" }

/-- The stored user "bob", whose `rows_per_page` and `type` are stored as
native ints (a server-version representation the spec calls out). -/
def bobU : ServerUser :=
  { userid := "5",
    fields :=
      [("alias", .scalar (.s "bob")),
       ("autologin", .scalar (.s "0")),
       ("autologout", .scalar (.s "15m")),
       ("lang", .scalar (.s "en_GB")),
       ("name", .scalar (.s "Bob")),
       ("passwd", .scalar (.s "hashed")),
       ("refresh", .scalar (.s "30s")),
       ("url", .scalar (.s "")),
       ("rows_per_page", .scalar (.i 50)),
       ("surname", .scalar (.s "B")),
       ("theme", .scalar (.s "default")),
       ("type", .scalar (.i 1))],
    usrgrps := [[("usrgrpid", Scalar.s "7")]],
    medias :=
      [[("active", Scalar.b true),
        ("mediatypeid", Scalar.s "1"),
        ("period", Scalar.s "1-7,00:00-24:00"),
        ("sendto", Scalar.slist ["a@b.c"]),
        ("severity", Scalar.s "63")]] }

/-- A store holding only "bob". -/
def srvBob : Server := { users := [bobU] }

/-- A full `present` invocation for alias "bob". -/
def pBob : ModuleParams :=
  { pAlice with
    al := "bob", user_name := some "Bob", user_surname := some "B" }

/-- A store holding a user "carol" with id "3". -/
def srvCarol : Server :=
  { users := [{ userid := "3",
                fields := [("alias", .scalar (.s "carol"))],
                usrgrps := [], medias := [] }] }

/-- A `present` invocation for "carol" with an EMPTY desired media list. -/
def pCarol : ModuleParams :=
  { pAlice with al := "carol", user_medias := some ([] : List SubDict) }

/-- The "alice" invocation with `user_groups` left at its `None` default. -/
def pNoGroups : ModuleParams :=
  { pAlice with user_groups := Option.none }

/-- An invocation with a malformed group entry (no `usrgrpid` key) and
`user_medias` left at its `None` default. -/
def pMalformed : ModuleParams :=
  { pAlice with
    user_groups := some [[]], user_medias := Option.none }

/-! ### General lemmas -/

theorem lookupD_cons {α : Type} (x : String × α) (d : List (String × α))
    (k : String) :
    lookupD (x :: d) k = if x.1 == k then some x.2 else lookupD d k := by
  by_cases h : x.1 == k <;> simp [lookupD, List.find?, h]

theorem lookupD_setD_self {α : Type} (d : List (String × α)) (k : String)
    (v : α) : lookupD (setD d k v) k = some v := by
  induction d with
  | nil => simp [setD, lookupD_cons]
  | cons hd tl ih =>
    rw [setD]
    by_cases hk : (hd.1 == k) = true
    · rw [if_pos hk, lookupD_cons]
      simp
    · rw [if_neg hk, lookupD_cons, if_neg hk]
      exact ih

theorem lookupD_setD_ne {α : Type} (d : List (String × α)) (k k2 : String)
    (v : α) (hne : k2 ≠ k) : lookupD (setD d k v) k2 = lookupD d k2 := by
  induction d with
  | nil =>
    rw [setD, lookupD_cons]
    have hkk : (k == k2) = false :=
      beq_eq_false_iff_ne.mpr (fun h => hne h.symm)
    simp [hkk, lookupD]
  | cons hd tl ih =>
    rw [setD]
    by_cases hk : (hd.1 == k) = true
    · rw [if_pos hk, lookupD_cons, lookupD_cons]
      have hkk : (k == k2) = false :=
        beq_eq_false_iff_ne.mpr (fun h => hne h.symm)
      have hdk : hd.1 = k := eq_of_beq hk
      rw [hdk]
      simp [hkk]
    · rw [if_neg hk, lookupD_cons, lookupD_cons]
      by_cases h2 : (hd.1 == k2) = true
      · simp [h2]
      · simp [h2, ih]

theorem keysOf_setD_of_mem {α : Type} (d : List (String × α)) (k : String)
    (v : α) (h : (lookupD d k).isSome) : keysOf (setD d k v) = keysOf d := by
  induction d with
  | nil => simp [lookupD] at h
  | cons hd tl ih =>
    rw [setD]
    by_cases hk : (hd.1 == k) = true
    · rw [if_pos hk]
      simp [keysOf, eq_of_beq hk]
    · rw [if_neg hk]
      rw [lookupD_cons, if_neg hk] at h
      simp only [keysOf, List.map_cons] at ih ⊢
      rw [ih h]

/-- The `str()` coercions of the media loop replace values in place, so
the key set (and order) of a media entry is unchanged. -/
theorem keysOf_coerceMedia (m : SubDict) :
    keysOf (coerceMedia m) = keysOf m := by
  unfold coerceMedia
  by_cases h1 : (lookupD m "mediatypeid").isSome
  · rcases Option.isSome_iff_exists.mp h1 with ⟨v1, hv1⟩
    simp only [hv1]
    have e1 : keysOf (setD m "mediatypeid" (Scalar.s (pyStr v1))) =
        keysOf m :=
      keysOf_setD_of_mem m _ _ (by simp [hv1])
    by_cases h2 : (lookupD (setD m "mediatypeid" (Scalar.s (pyStr v1)))
        "severity").isSome
    · rcases Option.isSome_iff_exists.mp h2 with ⟨v2, hv2⟩
      simp only [hv2]
      rw [keysOf_setD_of_mem _ _ _ (by simp [hv2]), e1]
    · rcases Option.not_isSome_iff_eq_none.mp h2 with hn
      simp only [hn]
      exact e1
  · rcases Option.not_isSome_iff_eq_none.mp h1 with hn
    simp only [hn]
    by_cases h2 : (lookupD m "severity").isSome
    · rcases Option.isSome_iff_exists.mp h2 with ⟨v2, hv2⟩
      simp only [hv2]
      exact keysOf_setD_of_mem m _ _ (by simp [hv2])
    · rcases Option.not_isSome_iff_eq_none.mp h2 with hn2
      simp only [hn2]

theorem mutCount_append (a b : List Call) :
    mutCount (a ++ b) = mutCount a + mutCount b := by
  simp [mutCount, List.filter_append]

theorem mutCount_single_le (c : Call) : mutCount [c] ≤ 1 := by
  cases c <;> simp [mutCount, isMutating]

theorem mutCount_le_one_snoc (t : List Call) (c : Call)
    (h : mutCount t = 0) : mutCount (t ++ [c]) ≤ 1 := by
  rw [mutCount_append, h, Nat.zero_add]
  exact mutCount_single_le c

/-- `_get_user_id` issues only the lookup call, never a mutation. -/
theorem mutCount_get_user_id (srv : Server) (al : String) :
    mutCount (get_user_id srv al).2 = 0 := by
  unfold get_user_id
  cases findUsers srv al <;> rfl

/-- `_get_user_state` issues only lookup and fetch calls. -/
theorem mutCount_get_user_state (srv : Server) (al : String)
    (ms : List SubDict) : mutCount (get_user_state srv al ms).2 = 0 := by
  cases ms with
  | nil => rfl
  | cons m rest =>
    simp only [get_user_state]
    split
    next e t heq =>
      have h2 := mutCount_get_user_id srv al
      rw [heq] at h2
      simpa using h2
    next uid t heq =>
      have ht : mutCount t = 0 := by
        have h2 := mutCount_get_user_id srv al
        rw [heq] at h2
        simpa using h2
      split
      next => dsimp only; rw [mutCount_append, ht]; rfl
      next => dsimp only; rw [mutCount_append, ht]; rfl

/-- `delete_user` issues at most one mutating call. -/
theorem mutCount_delete_user (srv : Server) (al : String) :
    mutCount (delete_user srv al).2 ≤ 1 := by
  unfold delete_user
  split
  next o t heq =>
    have h2 := mutCount_get_user_id srv al
    rw [heq] at h2
    simp at h2
    simp [h2]
  next e t heq =>
    have h2 := mutCount_get_user_id srv al
    rw [heq] at h2
    simp at h2
    simp [h2]
  next uid t heq =>
    have ht : mutCount t = 0 := by
      have h2 := mutCount_get_user_id srv al
      rw [heq] at h2
      simpa using h2
    split
    · dsimp only
      exact mutCount_le_one_snoc t _ ht
    · simp [ht]

/-- `create_user` issues at most one mutating call. -/
theorem mutCount_create_user (cm : Bool) (al a b c d e f : String)
    (gs ms : List SubDict) (un pw us : Option String) (th ty : String) :
    mutCount (create_user cm al a b c d e f gs ms un pw us th ty).2 ≤ 1 := by
  cases cm with
  | true => exact Nat.zero_le 1
  | false => exact Nat.le_refl 1

/-- `update_user` issues at most one mutating call. -/
theorem mutCount_update_user (srv : Server) (al a b c d e f : String)
    (gs ms : List SubDict) (un pw us : Option String) (th ty : String) :
    mutCount (update_user srv al a b c d e f gs ms un pw us th ty).2 ≤ 1 := by
  unfold update_user
  split
  next o t heq =>
    have h2 := mutCount_get_user_id srv al
    rw [heq] at h2
    simp at h2
    simp [h2]
  next e2 t heq =>
    have h2 := mutCount_get_user_id srv al
    rw [heq] at h2
    simp at h2
    simp [h2]
  next uid t1 heq =>
    have ht1 : mutCount t1 = 0 := by
      have h2 := mutCount_get_user_id srv al
      rw [heq] at h2
      simpa using h2
    split
    next o t2 heq2 =>
      have ht2 : mutCount t2 = 0 := by
        have h2 := mutCount_get_user_state srv al ms
        rw [heq2] at h2
        simpa using h2
      dsimp only
      rw [mutCount_append, ht1, ht2]
      exact Nat.zero_le 1
    next e2 t2 heq2 =>
      have ht2 : mutCount t2 = 0 := by
        have h2 := mutCount_get_user_state srv al ms
        rw [heq2] at h2
        simpa using h2
      dsimp only
      rw [mutCount_append, ht1, ht2]
      exact Nat.zero_le 1
    next cstate0 t2 heq2 =>
      have ht2 : mutCount t2 = 0 := by
        have h2 := mutCount_get_user_state srv al ms
        rw [heq2] at h2
        simpa using h2
      have ht12 : mutCount (t1 ++ t2) = 0 := by
        rw [mutCount_append, ht1, ht2]
      split
      next => dsimp only; simp [ht12]
      next mv restd heqp =>
        dsimp only
        split
        next => exact mutCount_le_one_snoc (t1 ++ t2) _ ht12
        next => simp [ht12]

/-- The password never reaches the comparison or the update call (the
`del` on the aliased dict removed it), so `update_user` is literally the
same function of either password value. -/
theorem update_user_pw (srv : Server) (al a b c d e f : String)
    (gs ms : List SubDict) (un us : Option String) (th ty : String)
    (pw1 pw2 : Option String) :
    update_user srv al a b c d e f gs ms un pw1 us th ty =
    update_user srv al a b c d e f gs ms un pw2 us th ty := rfl

/-- When every supplied group entry carries a `usrgrpid` key, the
coercion loop completes without raising. -/
theorem coerceGroups_ok_of_keys (gs : List SubDict)
    (h : gs.all (fun g => (lookupD g "usrgrpid").isSome) = true) :
    ∃ gs2, coerceGroups gs = .ok gs2 := by
  induction gs with
  | nil => exact ⟨[], rfl⟩
  | cons g tl ih =>
    rw [List.all_cons, Bool.and_eq_true] at h
    obtain ⟨h1, h2⟩ := h
    rcases Option.isSome_iff_exists.mp h1 with ⟨v, hv⟩
    rcases ih h2 with ⟨tl2, htl⟩
    exact ⟨setD g "usrgrpid" (Scalar.s (pyStr v)) :: tl2,
      by simp [coerceGroups, hv, htl]⟩

/-- Shared shape of the absent-lifecycle run when the alias has no
remote match: `_get_user_id` hits its `fail_json` after the single
lookup call. -/
theorem run_absent_no_match (srv : Server) (p : ModuleParams)
    (gs gs2 ms : List SubDict)
    (hst : p.state = .absent) (hg : p.user_groups = some gs)
    (hg2 : coerceGroups gs = .ok gs2) (hm : p.user_medias = some ms)
    (hfind : findUsers srv p.al = []) :
    runModule srv p = (.failed (.mUserNotExists p.al), [.userGet p.al]) := by
  rcases p with ⟨al, alog, alout, lg, un, pw, ru, rf, rpp, st, us, th, ty, ug, um, cm⟩
  simp only at hst hg hm hfind ⊢
  subst hst hg hm
  cases alog <;>
    simp [runModule, hg2, delete_user, get_user_id, hfind]

/-! ### Claim theorems -/

/-- C1: with check mode (dry-run) enabled the module still issues
mutating remote calls: the delete path (`delete_user` has no check-mode
guard) issues `user.delete`, and the update path (`update_user` has no
check-mode guard either) issues `user.update`.  Only `create_user`
short-circuits on `check_mode`. -/
theorem C1_check_mode_still_mutates :
    pDaveCheck.check_mode = true ∧ pAliceCheck.check_mode = true ∧
    runModule srvDave pDaveCheck =
      (.exited true (.mDeleted "dave"),
       [.userGet "dave", .userDelete ["9"]]) ∧
    mutCount (runModule srv1 pAliceCheck).2 = 1 := by decide

/-- C2 counterexample: requesting lifecycle `absent` for the alias "dave"
on an empty remote store terminates as a FAILURE (`fail_json` with "The
user does not exists"), not as a success with `changed=false`, after the
single existence-check call. -/
theorem C2_absent_delete_fails_cx :
    runModule srv0 pDave =
      (.failed (.mUserNotExists "dave"), [.userGet "dave"]) := by decide

/-- C3 counterexample: on the update path the remote-side record entering
the equality check still CONTAINS its `passwd` field (the fetch
projection requests it), while the desired side does not, so a run whose
desired state mirrors the applied state reports `changed=true` — and a
run differing only in the supplied password also reports `changed=true`,
not `false`. -/
theorem C3_password_exclusion_cx :
    changedOf (runModule srv1 pAlice).1 = some true ∧
    changedOf
      (runModule srv1 { pAlice with user_password := some "pw2" }).1 =
      some true ∧
    (updatedStates (runModule srv1 pAlice).1).map
        (fun q => (lookupD q.1 "passwd", lookupD q.2 "passwd")) =
      some (some (.scalar (.s "pw1")), Option.none) := by decide

/-- C4: reconciliation is NOT idempotent.  The first run on an empty
store creates the user with params `cp0` and reports `changed=true`; the
second, identical run against the server that stored exactly those
applied params reports `changed=true` again and issues `user.update`,
because the fetched record contains `passwd` (requested by the
projection) but no `userid`, while the desired-side `nstate` contains
`userid` but no `passwd`. -/
theorem C4_second_run_still_changed :
    runModule srv0 pAlice =
      (.exited true (.mCreated "alice"),
       [.userGet "alice", .userCreate cp0]) ∧
    changedOf (runModule srv1 pAlice).1 = some true ∧
    mutCount (runModule srv1 pAlice).2 = 1 := by decide

/-- C5: the params sent on the `user.update` call do NOT contain the
caller-supplied password: `nstate = params` aliases the params dict, so
`del nstate['passwd']` strips `passwd` from the dict that is then passed
to `user.update`. -/
theorem C5_update_call_lacks_password :
    pAlice.user_password = some "pw1" ∧
    (runModule srv1 pAlice).2.filter isMutating = [.userUpdate up0] ∧
    lookupD up0 "passwd" = Option.none := by decide

/-- C6 counterexample: with TWO remote users sharing the alias "dup",
identifier resolution silently uses the first match's id ("1") — the
delete run succeeds against that user instead of surfacing the
inconsistency. -/
theorem C6_multi_match_cx :
    (findUsers srvDup "dup").length = 2 ∧
    runModule srvDup pDup =
      (.exited true (.mDeleted "dup"),
       [.userGet "dup", .userDelete ["1"]]) := by decide

/-- C7 counterexample: when the server stores `rows_per_page` as a native
int, the remote-side record enters the update-path equality check with
the int value `50` while the desired side holds the string `"50"` — the
numeric-looking fields are NOT coerced to strings on the remote side. -/
theorem C7_remote_side_uncoerced_cx :
    (updatedStates (runModule srvBob pBob).1).map
        (fun q => (lookupD q.1 "rows_per_page", lookupD q.2 "rows_per_page"))
      = some (some (.scalar (.i 50)), some (.scalar (.s "50"))) := by decide

/-- C8 counterexample: a `present` run for an existing user with an EMPTY
desired media list fails (`medias[0]` raises `IndexError`, converted to
the "Failed to update" failure) — the remote detail fetch is indeed not
attempted, but the run is a failure, not a completed fetch. -/
theorem C8_empty_media_run_fails_cx :
    runModule srvCarol pCarol =
      (.failed (.mFailedUpdate "carol" .indexError),
       [.userGet "carol", .userGet "carol"]) := by decide

/-- C2 (amended): requesting lifecycle `absent` for an alias with no
remote match (with the group/media parameters supplied so the coercion
loops pass) terminates as a FAILURE — `fail_json("The user ... does not
exists.")` — after the single existence-check call, never as a
`changed=false` success. -/
theorem C2_absent_delete_fails (srv : Server) (p : ModuleParams)
    (gs gs2 ms : List SubDict)
    (hst : p.state = .absent) (hg : p.user_groups = some gs)
    (hg2 : coerceGroups gs = .ok gs2) (hm : p.user_medias = some ms)
    (hfind : findUsers srv p.al = []) :
    runModule srv p = (.failed (.mUserNotExists p.al), [.userGet p.al]) :=
  run_absent_no_match srv p gs gs2 ms hst hg hg2 hm hfind

/-- Witness for C2: the concrete "dave"-absent run. -/
theorem C2_absent_delete_fails_witness :
    runModule srv0 pDave =
      (.failed (.mUserNotExists "dave"), [.userGet "dave"]) :=
  C2_absent_delete_fails srv0 pDave [] [] [] rfl rfl rfl rfl rfl

/-- C3 (amended): the supplied password never influences the reported
outcome — two runs differing only in `user_password` produce the SAME
outcome (the desired-side dict loses `passwd` before both the comparison
and the update call).  The outcome is not `changed=false`, though: the
counterexample shows both runs report `changed=true`. -/
theorem C3_changed_independent_of_password (srv : Server)
    (p : ModuleParams) (pw1 pw2 : Option String) :
    (runModule srv { p with user_password := pw1 }).1 =
    (runModule srv { p with user_password := pw2 }).1 := by
  rcases p with ⟨al, alog, alout, lg, un, pw, ru, rf, rpp, st, us, th, ty, ug, um, cm⟩
  cases ug with
  | none => rfl
  | some gs =>
    cases hg : coerceGroups gs with
    | error e => simp [runModule, hg]
    | ok gs2 =>
      cases um with
      | none => simp [runModule, hg]
      | some ms =>
        cases st with
        | absent => simp [runModule, hg]
        | present =>
          cases hf : findUsers srv al with
          | nil =>
            simp [runModule, hg, check_user_exist, hf]
            cases cm <;> rfl
          | cons u usr =>
            simp [runModule, hg, check_user_exist, hf]
            exact congrArg Prod.fst
              (update_user_pw srv al _ _ _ _ _ _ _ _ _ _ _ _ pw1 pw2)

/-- C6 (amended): identifier resolution fails with the not-found error
when the remote service returns zero matches, but MORE than one match is
silently resolved to the first match's id — the absent-lifecycle run
then deletes that first user and reports success, surfacing no
inconsistency. -/
theorem C6_id_resolution (srv : Server) (p : ModuleParams)
    (gs gs2 ms : List SubDict)
    (hst : p.state = .absent) (hg : p.user_groups = some gs)
    (hg2 : coerceGroups gs = .ok gs2) (hm : p.user_medias = some ms) :
    (findUsers srv p.al = [] →
      runModule srv p =
        (.failed (.mUserNotExists p.al), [.userGet p.al])) ∧
    (∀ u1 u2 rest, findUsers srv p.al = u1 :: u2 :: rest →
      u1.userid ≠ "" →
      runModule srv p =
        (.exited true (.mDeleted p.al),
         [.userGet p.al, .userDelete [u1.userid]])) := by
  constructor
  · intro hfind
    exact run_absent_no_match srv p gs gs2 ms hst hg hg2 hm hfind
  · intro u1 u2 rest hfind hid
    rcases p with ⟨al, alog, alout, lg, un, pw, ru, rf, rpp, st, us, th, ty, ug, um, cm⟩
    simp only at hst hg hm hfind ⊢
    subst hst hg hm
    cases alog <;>
      simp [runModule, hg2, delete_user, get_user_id, hfind, hid]

/-- Witness for C6: the duplicated alias "dup" resolves to id "1". -/
theorem C6_id_resolution_witness :
    runModule srvDup pDup =
      (.exited true (.mDeleted "dup"),
       [.userGet "dup", .userDelete ["1"]]) :=
  (C6_id_resolution srvDup pDup [] [] [] rfl rfl rfl rfl).2
    dupU1 dupU2 [] (by decide) (by decide)

/-- C7 (amended): the canonical-string coercion is applied to the
DESIRED side only: every group entry surviving the coercion loop holds a
string `usrgrpid`, and a media entry's `mediatypeid` / `severity` are
`str()`-coerced when present.  (The remote side enters the comparison
exactly as fetched — see the C7 counterexample.) -/
theorem C7_desired_side_coerced :
    (∀ (gs gs2 : List SubDict), coerceGroups gs = .ok gs2 →
      gs2.all (fun g =>
        match lookupD g "usrgrpid" with
        | some (.s _) => true
        | _ => false) = true) ∧
    (∀ (m : SubDict) (v : Scalar), lookupD m "mediatypeid" = some v →
      lookupD (coerceMedia m) "mediatypeid" = some (.s (pyStr v))) ∧
    (∀ (m : SubDict) (v : Scalar), lookupD m "severity" = some v →
      ∃ s2 : String, lookupD (coerceMedia m) "severity" = some (.s s2)) := by
  refine ⟨?_, ?_, ?_⟩
  · intro gs
    induction gs with
    | nil =>
      intro gs2 hok
      rw [coerceGroups] at hok
      injection hok with h
      subst h
      rfl
    | cons g tl ih =>
      intro gs2 hok
      rw [coerceGroups] at hok
      cases hv : lookupD g "usrgrpid" with
      | none => rw [hv] at hok; exact absurd hok (by simp)
      | some v =>
        rw [hv] at hok
        cases htl : coerceGroups tl with
        | error e => rw [htl] at hok; exact absurd hok (by simp)
        | ok tl2 =>
          rw [htl] at hok
          injection hok with h
          subst h
          rw [List.all_cons, Bool.and_eq_true]
          constructor
          · rw [lookupD_setD_self]
          · exact ih tl2 htl
  · intro m v hv
    unfold coerceMedia
    rw [hv]
    dsimp only
    cases h2 : lookupD (setD m "mediatypeid" (Scalar.s (pyStr v)))
        "severity" with
    | none =>
      dsimp only
      exact lookupD_setD_self m _ _
    | some v2 =>
      dsimp only
      rw [lookupD_setD_ne (setD m "mediatypeid" (Scalar.s (pyStr v)))
        "severity" "mediatypeid" (Scalar.s (pyStr v2)) (by decide)]
      exact lookupD_setD_self m _ _
  · intro m v hv
    unfold coerceMedia
    cases h1 : lookupD m "mediatypeid" with
    | none =>
      dsimp only
      rw [hv]
      dsimp only
      exact ⟨pyStr v, lookupD_setD_self m _ _⟩
    | some v1 =>
      dsimp only
      have hsev : lookupD (setD m "mediatypeid" (Scalar.s (pyStr v1)))
          "severity" = some v := by
        rw [lookupD_setD_ne m "mediatypeid" "severity"
          (Scalar.s (pyStr v1)) (by decide)]
        exact hv
      rw [hsev]
      dsimp only
      exact ⟨pyStr v, lookupD_setD_self _ _ _⟩

/-- Witness for C7: the concrete group and media fixtures coerce to
string form. -/
theorem C7_desired_side_coerced_witness :
    ([[("usrgrpid", Scalar.s "7")]] : List SubDict).all (fun g =>
        match lookupD g "usrgrpid" with
        | some (.s _) => true
        | _ => false) = true ∧
    lookupD (coerceMedia mediaEx) "mediatypeid" =
      some (.s (pyStr (Scalar.i 1))) ∧
    ∃ s2 : String, lookupD (coerceMedia mediaEx) "severity" =
      some (.s s2) :=
  ⟨C7_desired_side_coerced.1 gEx [[("usrgrpid", Scalar.s "7")]] rfl,
   C7_desired_side_coerced.2.1 mediaEx (Scalar.i 1) (by decide),
   C7_desired_side_coerced.2.2 mediaEx (Scalar.s "63") (by decide)⟩

/-- C8 (amended): the remote detail fetch requests the media
sub-collection projected to exactly the field keys of the FIRST desired
media entry; with an EMPTY desired media list the fetch is not attempted
because `medias[0]` raises `IndexError`, and the run FAILS with the
"Failed to update" error. -/
theorem C8_media_projection (srv : Server) (p : ModuleParams)
    (gs gs2 : List SubDict) (u : ServerUser) (us2 : List ServerUser)
    (hst : p.state = .present) (hg : p.user_groups = some gs)
    (hg2 : coerceGroups gs = .ok gs2)
    (hfind : findUsers srv p.al = u :: us2) :
    (∀ m rest, p.user_medias = some (m :: rest) →
      (get_user_state srv p.al ((m :: rest).map coerceMedia)).2 =
        [.userGet p.al,
         .userGetDetail outputFields "usrgrpid" (keysOf m) u.userid]) ∧
    (p.user_medias = some [] →
      runModule srv p =
        (.failed (.mFailedUpdate p.al .indexError),
         [.userGet p.al, .userGet p.al])) := by
  constructor
  · intro m rest hm
    simp only [List.map_cons, get_user_state]
    rw [keysOf_coerceMedia]
    split
    next e t heq =>
      rw [get_user_id, hfind] at heq
      exact absurd heq (by simp)
    next uid t heq =>
      rw [get_user_id, hfind] at heq
      injection heq with h1 h2
      injection h1 with h3
      subst h3 h2
      split <;> rfl
  · intro hm
    rcases p with ⟨al, alog, alout, lg, un, pw, ru, rf, rpp, st, us, th, ty, ug, um, cm⟩
    simp only at hst hg hm hfind ⊢
    subst hst hg hm
    cases alog <;>
      simp [runModule, hg2, check_user_exist, hfind, update_user,
        get_user_id, get_user_state]

/-- Witness for C8: fetching "bob" projects the media collection to the
keys of the first desired media entry. -/
theorem C8_media_projection_witness :
    (get_user_state srvBob "bob" ([mediaEx].map coerceMedia)).2 =
      [.userGet "bob",
       .userGetDetail outputFields "usrgrpid" (keysOf mediaEx) "5"] :=
  (C8_media_projection srvBob pBob gEx [[("usrgrpid", Scalar.s "7")]]
    bobU [] rfl rfl rfl (by decide)).1 mediaEx [] rfl

/-- C9 counterexample: with `user_medias` omitted but a malformed group
entry supplied (no `usrgrpid` key), the run crashes in the coercion loop
with a KEY error, not a type error. -/
theorem C9_keyerror_cx :
    pMalformed.user_medias = Option.none ∧
    runModule srv0 pMalformed =
      (.crashed (.keyError "usrgrpid"), []) := by decide

/-- C9 (amended): omitting `user_groups` or `user_medias` always crashes
the run inside the string-coercion loops, before ANY remote call
(including the transport connect) and regardless of the requested
lifecycle; the crash is the `TypeError` from iterating `None` whenever
`user_groups` is omitted or the supplied group entries are well-formed
(a malformed group entry raises its `KeyError` first). -/
theorem C9_omitted_collections_crash (srv : Server) (p : ModuleParams)
    (h : p.user_groups = Option.none ∨ p.user_medias = Option.none) :
    ∃ exc : PyExc, runModule srv p = (.crashed exc, []) ∧
      ((p.user_groups = Option.none ∨
        ∃ gs, p.user_groups = some gs ∧
          gs.all (fun g => (lookupD g "usrgrpid").isSome) = true) →
        exc = .typeError) := by
  rcases p with ⟨al, alog, alout, lg, un, pw, ru, rf, rpp, st, us, th, ty, ug, um, cm⟩
  simp only at h ⊢
  cases ug with
  | none =>
    refine ⟨.typeError, ?_, fun _ => rfl⟩
    cases alog <;> simp [runModule]
  | some gs =>
    rcases h with h | h
    · exact absurd h (by simp)
    · subst h
      cases hc : coerceGroups gs with
      | error e =>
        refine ⟨e, ?_, ?_⟩
        · cases alog <;> simp [runModule, hc]
        · intro hcond
          rcases hcond with h1 | ⟨gs3, hgs3, hall⟩
          · exact absurd h1 (by simp)
          · obtain rfl : gs = gs3 := by injection hgs3
            rcases coerceGroups_ok_of_keys gs hall with ⟨gs2, hok⟩
            rw [hc] at hok
            exact absurd hok (by simp)
      | ok gs2 =>
        refine ⟨.typeError, ?_, fun _ => rfl⟩
        cases alog <;> simp [runModule, hc]

/-- Witness for C9: the "alice" run with `user_groups` omitted crashes
with the `TypeError` and an empty call trace. -/
theorem C9_omitted_collections_crash_witness :
    runModule srv0 pNoGroups = (.crashed .typeError, []) := by
  obtain ⟨exc, hrun, hcond⟩ :=
    C9_omitted_collections_crash srv0 pNoGroups (Or.inl rfl)
  rw [hcond (Or.inl rfl)] at hrun
  exact hrun

/-- C10: every run issues at most one mutating remote call — each of
`create_user`, `update_user` and `delete_user` terminates the invocation
right after its single mutation (or before one). -/
theorem C10_at_most_one_mutation (srv : Server) (p : ModuleParams) :
    mutCount (runModule srv p).2 ≤ 1 := by
  rcases p with ⟨al, alog, alout, lg, un, pw, ru, rf, rpp, st, us, th, ty, ug, um, cm⟩
  cases ug with
  | none => cases alog <;> simp [runModule, mutCount]
  | some gs =>
    cases hg : coerceGroups gs with
    | error e => cases alog <;> simp [runModule, hg, mutCount]
    | ok gs2 =>
      cases um with
      | none => cases alog <;> simp [runModule, hg, mutCount]
      | some ms =>
        cases st with
        | absent =>
          cases alog <;>
            simpa [runModule, hg] using mutCount_delete_user srv al
        | present =>
          cases alog <;>
          · simp only [runModule, hg, check_user_exist]
            split
            · dsimp only
              rw [mutCount_append]
              have h1 : mutCount [Call.userGet al] = 0 := rfl
              rw [h1, Nat.zero_add]
              exact mutCount_update_user srv al _ _ _ _ _ _ _ _ _ _ _ _ _
            · dsimp only
              rw [mutCount_append]
              have h1 : mutCount [Call.userGet al] = 0 := rfl
              rw [h1, Nat.zero_add]
              exact mutCount_create_user cm al _ _ _ _ _ _ _ _ _ _ _ _ _

end ZbxUser
